import Mathlib

/-!
Verification of the IBC 07-tendermint light-client update logic
(`x/ibc/07-tendermint/update.go`): the orchestrator
`CheckValidityAndUpdateState`, the validity checker `checkValidity`, and the
state updater `update`, embedded shallowly.  External collaborators
(the tendermint `lite.Verify` bisection verifier, `ValidatorSet.Hash`,
the wall clock read by `time.Now()`) are abstracted into an `Env` record of
functions; the repository types `ClientState`, `Header`, `ConsensusState`
and the helpers `Header.ValidateBasic` / `commitment.NewRoot`, whose sources
are outside the verified file, are modelled from the specification.
Go `int64` heights, `time.Duration` and `time.Time` are modelled as `Int`;
byte slices as `List Nat`.
-/

namespace IbcTendermint

/-- Voting-power fraction, modelling `tmmath.Fraction` of the external
tendermint dependency. -/
structure Fraction where
  numerator : Nat
  denominator : Nat
deriving DecidableEq, Repr

/-- Modelling the external constant `lite.DefaultTrustLevel` of the
tendermint lite2 package (numerically 1/3 there; no claim depends on the
value, only on it being one fixed constant). -/
def DefaultTrustLevel : Fraction := ⟨1, 3⟩

/-- External `tmtypes.ValidatorSet`, kept abstract: the verified file never
inspects it, it only passes it to the external verifier and hash. -/
structure ValidatorSet where
  id : Nat
deriving DecidableEq, Repr

/-- Modelled from the spec: the opaque signed block header.  The fields are
exactly what the surrounding code observes: the embedded chain identifier and
structural well-formedness (checked by the spec-modelled `ValidateBasic`),
and the header time (read by the external verifier for trusting-period
expiry). -/
structure SignedHeader where
  chainID : String
  time : Int
  wellFormed : Bool
deriving DecidableEq, Repr

/-- An error produced by the external bisection verifier, opaque to this
module. -/
structure LiteError where
  message : String
deriving DecidableEq, Repr

/-- Modelled from the spec: `ClientState` of the 07-tendermint module,
`{ latestHeight: integer }`. -/
structure ClientState where
  latestHeight : Int
deriving DecidableEq, Repr

/-- Modelled from the spec: a commitment root derived from an app hash
(`commitment.NewRoot`, from `x/ibc/23-commitment`, not in the verified
file). -/
structure Root where
  hash : List Nat
deriving DecidableEq, Repr

/-- Modelled from the spec: `commitment.NewRoot(appHash)` wraps the app-hash
bytes as a commitment root. -/
def NewRoot (appHash : List Nat) : Root := ⟨appHash⟩

/-- Modelled from the spec: the 07-tendermint `Header`,
`{ height, signedHeader, validatorSet, nextValidatorSet, appHash }`. -/
structure Header where
  signedHeader : SignedHeader
  validatorSet : ValidatorSet
  nextValidatorSet : ValidatorSet
  appHash : List Nat
  height : Int
deriving DecidableEq, Repr

/-- Modelled from the spec: `Header.GetHeight()` returns the header height. -/
def Header.getHeight (h : Header) : Int := h.height

/-- Modelled from the spec: `ConsensusState`,
`{ root: commitment-root, validatorSetHash: hash-of-validatorSet }`. -/
structure ConsensusState where
  root : Root
  validatorSetHash : List Nat
deriving DecidableEq, Repr

/-- The registered errors of `x/ibc/02-client/types` that `update.go` wraps:
`clienttypes.ErrInvalidClientType` and `clienttypes.ErrInvalidHeader`. -/
inductive RegisteredError
| invalidClientType
| invalidHeader
deriving DecidableEq, Repr

/-- Go `error` values that can leave this module: an `sdkerrors.Wrap` of a
registered client error with a message, an error from the spec-modelled
`Header.ValidateBasic`, or an error object of the external bisection
verifier, passed through as-is. -/
inductive Err
| wrapped (base : RegisteredError) (msg : String)
| headerSelfValidation (msg : String)
| lite (e : LiteError)
deriving DecidableEq, Repr

/-- Environment of external collaborators: the tendermint `lite.Verify`
bisection verifier (arguments in source order: chainID, trusted signed
header, trusted next validators, untrusted signed header, untrusted
validators, trusting period, now, trust level), the external
`ValidatorSet.Hash`, and the ambient wall clock read by `time.Now()`. -/
structure Env where
  liteVerify : String → SignedHeader → ValidatorSet → SignedHeader → ValidatorSet →
    Int → Int → Fraction → Option LiteError
  valSetHash : ValidatorSet → List Nat
  clock : Unit → Int

/-- The interface type `clientexported.ClientState`: either this module's
tendermint variant or a foreign variant whose data this module never
interprets. -/
inductive AnyClientState
| tendermint (cs : ClientState)
| other (tag : String)

/-- The interface type `clientexported.Header`: tendermint variant or
foreign. -/
inductive AnyHeader
| tendermint (h : Header)
| other (tag : String)

/-- The triple returned by `CheckValidityAndUpdateState` in Go:
`(clientexported.ClientState, clientexported.ConsensusState, error)`, each
component possibly nil. -/
structure UpdateResult where
  clientState : Option ClientState
  consensusState : Option ConsensusState
  err : Option Err
deriving DecidableEq, Repr

/-- Message of the wrap at the non-increasing-height rejection, from the
source format string. -/
def nonIncreasingHeightMsg (newH oldH : Int) : String :=
  "new header height ≤ old header height (" ++ toString newH ++ " <= " ++ toString oldH ++ ")"

/-- Message of the wrap at the below-latest-trusted rejection, from the
source format string. -/
def heightBelowLatestMsg (newH latest : Int) : String :=
  "header height < latest client state height (" ++ toString newH ++ " < " ++ toString latest ++ ")"

/-- Modelled from the spec: `Header.ValidateBasic(chainID)` (header
self-consistency, source outside the verified file): the embedded chain
identifier must match the expected one and the signed header must be
structurally well formed; any violation is its own error kind. -/
def Header.validateBasic (h : Header) (chainID : String) : Option Err :=
  if h.signedHeader.chainID ≠ chainID then
    some (Err.headerSelfValidation ("header chain-id does not match the expected chain-id"))
  else if ¬ h.signedHeader.wellFormed then
    some (Err.headerSelfValidation ("malformed signed header"))
  else none

/-- Embedding of `checkValidity` from `update.go`: the two height gates, the
basic consistency check of the new header, then the delegated tendermint
light-client verification, called with the ambient clock reading
(`time.Now()`) and the fixed `lite.DefaultTrustLevel`. -/
def checkValidity (env : Env) (clientState : ClientState) (oldHeader newHeader : Header)
    (oldHeaderNextVals : ValidatorSet) (chainID : String) (trustingPeriod : Int) :
    Option Err :=
  if newHeader.height ≤ oldHeader.height then
    some (Err.wrapped RegisteredError.invalidHeader
      (nonIncreasingHeightMsg newHeader.height oldHeader.height))
  else if newHeader.getHeight < clientState.latestHeight then
    some (Err.wrapped RegisteredError.invalidHeader
      (heightBelowLatestMsg newHeader.height clientState.latestHeight))
  else
    match newHeader.validateBasic chainID with
    | some e => some e
    | none =>
      (env.liteVerify chainID oldHeader.signedHeader oldHeaderNextVals
        newHeader.signedHeader newHeader.validatorSet trustingPeriod
        (env.clock ()) DefaultTrustLevel).map Err.lite

/-- Embedding of `update` from `update.go`: set the latest height to the
header height and build the consensus state from the header's app hash and
validator-set hash. -/
def update (env : Env) (clientState : ClientState) (header : Header) :
    ClientState × ConsensusState :=
  ({ clientState with latestHeight := header.getHeight },
   { root := NewRoot header.appHash,
     validatorSetHash := env.valSetHash header.validatorSet })

/-- Embedding of `CheckValidityAndUpdateState` from `update.go`: discriminate
the client and header variants, run the checker, and on success run the
updater; every error path returns nil for both states. -/
def CheckValidityAndUpdateState (env : Env) (clientState : AnyClientState)
    (oldHeader newHeader : AnyHeader) (oldHeaderNextVals : ValidatorSet)
    (chainID : String) (trustingPeriod : Int) : UpdateResult :=
  match clientState with
  | AnyClientState.other _ =>
    ⟨none, none, some (Err.wrapped RegisteredError.invalidClientType
      ("light client is not from Tendermint"))⟩
  | AnyClientState.tendermint tmClientState =>
    match oldHeader with
    | AnyHeader.other _ =>
      ⟨none, none, some (Err.wrapped RegisteredError.invalidHeader
        ("header is not from Tendermint"))⟩
    | AnyHeader.tendermint tmHeader1 =>
      match newHeader with
      | AnyHeader.other _ =>
        ⟨none, none, some (Err.wrapped RegisteredError.invalidHeader
          ("header is not from Tendermint"))⟩
      | AnyHeader.tendermint tmHeader2 =>
        match checkValidity env tmClientState tmHeader1 tmHeader2
            oldHeaderNextVals chainID trustingPeriod with
        | some e => ⟨none, none, some e⟩
        | none =>
          let p := update env tmClientState tmHeader2
          ⟨some p.1, some p.2, none⟩

/-! Concrete instances used by witnesses. -/

/-- A bisection-verifier instance that accepts everything, with a trivial
validator-set hash and a clock stuck at 0. -/
def env0 : Env :=
  { liteVerify := fun _ _ _ _ _ _ _ _ => none
    valSetHash := fun v => [v.id]
    clock := fun _ => 0 }

/-- A well-formed signed header for the test chain. -/
def sh0 : SignedHeader := ⟨"testchain", 0, true⟩

/-- A trusted header at height 100. -/
def hdrOld : Header := ⟨sh0, ⟨1⟩, ⟨2⟩, [7], 100⟩

/-- A candidate header at height 101. -/
def hdrNew : Header := ⟨sh0, ⟨2⟩, ⟨3⟩, [9], 101⟩

/-- A client state whose latest trusted height is 100. -/
def cs0 : ClientState := ⟨100⟩

/-- A bisection-verifier instance that enforces only the trusting-period
clause of the dependency contract: reject when `now - trusted.time`
exceeds the trusting period. -/
def liteVerifyExpiry : String → SignedHeader → ValidatorSet → SignedHeader → ValidatorSet →
    Int → Int → Fraction → Option LiteError :=
  fun _ tsh _ _ _ tp now _ =>
    if tp < now - tsh.time then some ⟨"trusting period expired"⟩ else none

/-- The expiry-checking verifier under an ambient clock reading 0. -/
def envEarly : Env := ⟨liteVerifyExpiry, fun v => [v.id], fun _ => 0⟩

/-- The expiry-checking verifier under an ambient clock reading 5000. -/
def envLate : Env := ⟨liteVerifyExpiry, fun v => [v.id], fun _ => 5000⟩

/-- A bisection-verifier instance that accepts exactly at the default trust
level and rejects at every other threshold. -/
def lvOnlyDefault : String → SignedHeader → ValidatorSet → SignedHeader → ValidatorSet →
    Int → Int → Fraction → Option LiteError :=
  fun _ _ _ _ _ _ _ tl => if tl = DefaultTrustLevel then none else some ⟨"wrong trust level"⟩

/-! Helper lemmas shared by the claim theorems. -/

theorem string_data_append (s t : String) : (s ++ t).data = s.data ++ t.data := by
  cases s; cases t; rfl

theorem head_append {α : Type} (l l' : List α) (c : α) (h : l.head? = some c) :
    (l ++ l').head? = some c := by
  cases l with
  | nil => simp at h
  | cons x xs => simpa using h

theorem nonIncreasing_msg_head (a b : Int) :
    (nonIncreasingHeightMsg a b).data.head? = some 'n' := by
  rw [nonIncreasingHeightMsg, string_data_append, string_data_append, string_data_append,
    string_data_append]
  apply head_append
  apply head_append
  apply head_append
  apply head_append
  rfl

theorem belowLatest_msg_head (a b : Int) :
    (heightBelowLatestMsg a b).data.head? = some 'h' := by
  rw [heightBelowLatestMsg, string_data_append, string_data_append, string_data_append,
    string_data_append]
  apply head_append
  apply head_append
  apply head_append
  apply head_append
  rfl

theorem msgs_ne (a b c d : Int) : nonIncreasingHeightMsg a b ≠ heightBelowLatestMsg c d := by
  intro h
  have h1 := nonIncreasing_msg_head a b
  rw [h, belowLatest_msg_head c d] at h1
  exact absurd h1 (by decide)

theorem checkValidity_nonIncreasing (env : Env) (cs : ClientState) (oldH newH : Header)
    (nv : ValidatorSet) (cid : String) (tp : Int) (hh : newH.height ≤ oldH.height) :
    checkValidity env cs oldH newH nv cid tp =
      some (Err.wrapped RegisteredError.invalidHeader
        (nonIncreasingHeightMsg newH.height oldH.height)) := by
  simp [checkValidity, hh]

theorem checkValidity_belowLatest (env : Env) (cs : ClientState) (oldH newH : Header)
    (nv : ValidatorSet) (cid : String) (tp : Int)
    (h1 : oldH.height < newH.height) (h2 : newH.getHeight < cs.latestHeight) :
    checkValidity env cs oldH newH nv cid tp =
      some (Err.wrapped RegisteredError.invalidHeader
        (heightBelowLatestMsg newH.height cs.latestHeight)) := by
  have hn : ¬ (newH.height ≤ oldH.height) := by omega
  simp [checkValidity, hn, h2]

/-! Claim theorems. -/

/-- C1: for Tendermint-variant inputs with `new.height > old.height`,
`new.height ≥ clientState.latestHeight`, a self-consistent new header and
successful delegated verification, `CheckValidityAndUpdateState` succeeds,
the new client state's latest height is the new header's height, the new
consensus state's root is derived from the new header's app hash, and its
validator-set hash is the hash of the new header's validator set. -/
theorem checkValidityAndUpdateState_success
    (env : Env) (cs : ClientState) (oldH newH : Header) (nv : ValidatorSet)
    (cid : String) (tp : Int)
    (hh : oldH.height < newH.height)
    (hl : cs.latestHeight ≤ newH.height)
    (hvb : newH.validateBasic cid = none)
    (hlv : env.liteVerify cid oldH.signedHeader nv newH.signedHeader newH.validatorSet tp
      (env.clock ()) DefaultTrustLevel = none) :
    CheckValidityAndUpdateState env (AnyClientState.tendermint cs) (AnyHeader.tendermint oldH)
      (AnyHeader.tendermint newH) nv cid tp =
      ⟨some ⟨newH.height⟩,
       some ⟨NewRoot newH.appHash, env.valSetHash newH.validatorSet⟩, none⟩ := by
  have h1 : ¬ (newH.height ≤ oldH.height) := by omega
  have h2 : ¬ (newH.height < cs.latestHeight) := by omega
  simp [CheckValidityAndUpdateState, checkValidity, h1, h2, hvb, hlv, update, Header.getHeight]

/-- Witness for C1 at concrete inputs: heights 100 → 101, matching chain id,
accepting verifier. -/
theorem checkValidityAndUpdateState_success_witness :
    CheckValidityAndUpdateState env0 (AnyClientState.tendermint cs0) (AnyHeader.tendermint hdrOld)
      (AnyHeader.tendermint hdrNew) ⟨2⟩ ("testchain") 1000 =
      ⟨some ⟨hdrNew.height⟩,
       some ⟨NewRoot hdrNew.appHash, env0.valSetHash hdrNew.validatorSet⟩, none⟩ :=
  checkValidityAndUpdateState_success env0 cs0 hdrOld hdrNew ⟨2⟩ ("testchain") 1000
    (by decide) (by decide) (by decide) (by rfl)

/-- C2: latest height is monotonically non-decreasing across successful
updates: whenever `CheckValidityAndUpdateState` returns a new client state,
its latest height is at least the latest height before the update. -/
theorem latestHeight_monotone (env : Env) (cs : ClientState) (aoh anh : AnyHeader)
    (nv : ValidatorSet) (cid : String) (tp : Int) (cs' : ClientState)
    (h : (CheckValidityAndUpdateState env (AnyClientState.tendermint cs) aoh anh
      nv cid tp).clientState = some cs') :
    cs.latestHeight ≤ cs'.latestHeight := by
  cases aoh with
  | other t => simp [CheckValidityAndUpdateState] at h
  | tendermint oldH =>
    cases anh with
    | other t => simp [CheckValidityAndUpdateState] at h
    | tendermint newH =>
      cases hcv : checkValidity env cs oldH newH nv cid tp with
      | some e => simp [CheckValidityAndUpdateState, hcv] at h
      | none =>
        simp [CheckValidityAndUpdateState, hcv, update] at h
        rw [checkValidity] at hcv
        split at hcv
        · exact absurd hcv (by simp)
        · split at hcv
          · exact absurd hcv (by simp)
          · rename_i hlt
            rw [Header.getHeight] at hlt
            rw [← h]
            simp [Header.getHeight]
            omega

/-- Witness for C2: the concrete successful update from height 100 to 101
does not decrease the latest height. -/
theorem latestHeight_monotone_witness : cs0.latestHeight ≤ (100 : Int) + 1 :=
  latestHeight_monotone env0 cs0 (AnyHeader.tendermint hdrOld) (AnyHeader.tendermint hdrNew)
    ⟨2⟩ ("testchain") 1000 ⟨(100 : Int) + 1⟩ (by decide)

/-- C3: whenever the new header's height is at most the old header's height,
the checker fails with the non-increasing-height rejection, and the
orchestrator returns no new client state and no new consensus state. -/
theorem nonIncreasingHeight_rejected (env : Env) (cs : ClientState) (oldH newH : Header)
    (nv : ValidatorSet) (cid : String) (tp : Int) (hh : newH.height ≤ oldH.height) :
    checkValidity env cs oldH newH nv cid tp =
      some (Err.wrapped RegisteredError.invalidHeader
        (nonIncreasingHeightMsg newH.height oldH.height)) ∧
    CheckValidityAndUpdateState env (AnyClientState.tendermint cs) (AnyHeader.tendermint oldH)
      (AnyHeader.tendermint newH) nv cid tp =
      ⟨none, none, some (Err.wrapped RegisteredError.invalidHeader
        (nonIncreasingHeightMsg newH.height oldH.height))⟩ := by
  have h1 := checkValidity_nonIncreasing env cs oldH newH nv cid tp hh
  exact ⟨h1, by simp [CheckValidityAndUpdateState, h1]⟩

/-- Witness for C3: equal heights 100 and 100 are rejected with the
non-increasing-height error and no states. -/
theorem nonIncreasingHeight_rejected_witness :
    checkValidity env0 cs0 hdrOld hdrOld ⟨2⟩ ("testchain") 1000 =
      some (Err.wrapped RegisteredError.invalidHeader (nonIncreasingHeightMsg 100 100)) ∧
    CheckValidityAndUpdateState env0 (AnyClientState.tendermint cs0) (AnyHeader.tendermint hdrOld)
      (AnyHeader.tendermint hdrOld) ⟨2⟩ ("testchain") 1000 =
      ⟨none, none, some (Err.wrapped RegisteredError.invalidHeader
        (nonIncreasingHeightMsg 100 100))⟩ :=
  nonIncreasingHeight_rejected env0 cs0 hdrOld hdrOld ⟨2⟩ ("testchain") 1000 (by decide)

/-- C4 counterexample: with `old.height = 5`, `new.height = 3`,
`latestHeight = 10`, the new header's height is below the latest trusted
height, yet the checker fails with the non-increasing-height rejection, not
the below-latest-trusted one — the height-ordering gate fires first. -/
theorem heightBelowLatest_counterexample :
    checkValidity env0 ⟨10⟩ ⟨sh0, ⟨1⟩, ⟨2⟩, [7], 5⟩ ⟨sh0, ⟨2⟩, ⟨3⟩, [9], 3⟩
      ⟨2⟩ ("testchain") 1000 =
      some (Err.wrapped RegisteredError.invalidHeader (nonIncreasingHeightMsg 3 5)) ∧
    (3 : Int) < 10 ∧
    nonIncreasingHeightMsg 3 5 ≠ heightBelowLatestMsg 3 10 := by decide

/-- C4 (amended): for every new header with `new.height < latestHeight` and
`new.height > old.height`, the checker fails with the below-latest-trusted
rejection; and a new header with `new.height = latestHeight` (heights
increasing) passes both height gates, the outcome being exactly that of the
remaining self-consistency and delegated-verification steps. -/
theorem heightBelowLatest_rejected (env : Env) (cs : ClientState) (oldH newH : Header)
    (nv : ValidatorSet) (cid : String) (tp : Int) :
    (oldH.height < newH.height → newH.height < cs.latestHeight →
      checkValidity env cs oldH newH nv cid tp =
        some (Err.wrapped RegisteredError.invalidHeader
          (heightBelowLatestMsg newH.height cs.latestHeight))) ∧
    (oldH.height < newH.height → newH.height = cs.latestHeight →
      checkValidity env cs oldH newH nv cid tp =
        (match newH.validateBasic cid with
         | some e => some e
         | none =>
           (env.liteVerify cid oldH.signedHeader nv newH.signedHeader newH.validatorSet tp
             (env.clock ()) DefaultTrustLevel).map Err.lite)) := by
  constructor
  · intro h1 h2
    exact checkValidity_belowLatest env cs oldH newH nv cid tp h1 (by rw [Header.getHeight]; omega)
  · intro h1 h2
    have hn : ¬ (newH.height ≤ oldH.height) := by omega
    have hn2 : ¬ (newH.height < cs.latestHeight) := by omega
    simp [checkValidity, hn, hn2, Header.getHeight]

/-- Witness for C4 (amended): latest 150, old 100, new 120 is rejected as
below the latest trusted height; latest 100, old 99, new 100 passes both
height gates and (with an accepting verifier) succeeds the checker. -/
theorem heightBelowLatest_rejected_witness :
    checkValidity env0 ⟨150⟩ hdrOld ⟨sh0, ⟨2⟩, ⟨3⟩, [9], 120⟩ ⟨2⟩ ("testchain") 1000 =
      some (Err.wrapped RegisteredError.invalidHeader (heightBelowLatestMsg 120 150)) ∧
    checkValidity env0 cs0 ⟨sh0, ⟨1⟩, ⟨2⟩, [7], 99⟩ ⟨sh0, ⟨2⟩, ⟨3⟩, [9], 100⟩
      ⟨2⟩ ("testchain") 1000 = none :=
  ⟨(heightBelowLatest_rejected env0 ⟨150⟩ hdrOld ⟨sh0, ⟨2⟩, ⟨3⟩, [9], 120⟩
      ⟨2⟩ ("testchain") 1000).1 (by decide) (by decide),
   (heightBelowLatest_rejected env0 cs0 ⟨sh0, ⟨1⟩, ⟨2⟩, [7], 99⟩ ⟨sh0, ⟨2⟩, ⟨3⟩, [9], 100⟩
      ⟨2⟩ ("testchain") 1000).2 (by decide) (by decide)⟩

/-- Every run of the orchestrator returns either an error with both states
nil, or no error with both states present. -/
theorem orchestrator_cases (env : Env) (acs : AnyClientState) (aoh anh : AnyHeader)
    (nv : ValidatorSet) (cid : String) (tp : Int) :
    (∃ e, CheckValidityAndUpdateState env acs aoh anh nv cid tp = ⟨none, none, some e⟩) ∨
    (∃ cs co, CheckValidityAndUpdateState env acs aoh anh nv cid tp =
      ⟨some cs, some co, none⟩) := by
  cases acs with
  | other t => exact Or.inl ⟨_, rfl⟩
  | tendermint cs =>
    cases aoh with
    | other t => exact Or.inl ⟨_, rfl⟩
    | tendermint oldH =>
      cases anh with
      | other t => exact Or.inl ⟨_, rfl⟩
      | tendermint newH =>
        cases hcv : checkValidity env cs oldH newH nv cid tp with
        | some e => exact Or.inl ⟨e, by simp [CheckValidityAndUpdateState, hcv]⟩
        | none =>
          exact Or.inr ⟨(update env cs newH).1, (update env cs newH).2,
            by simp [CheckValidityAndUpdateState, hcv]⟩

/-- C5: the orchestrator is atomic: a new client state is returned exactly
when no error is, a new consensus state is returned exactly when no error
is, and on Tendermint-variant inputs any checker error is propagated
unchanged with both states nil. -/
theorem orchestrator_atomicity (env : Env) (acs : AnyClientState) (aoh anh : AnyHeader)
    (nv : ValidatorSet) (cid : String) (tp : Int) :
    ((CheckValidityAndUpdateState env acs aoh anh nv cid tp).clientState.isSome =
      (CheckValidityAndUpdateState env acs aoh anh nv cid tp).err.isNone) ∧
    ((CheckValidityAndUpdateState env acs aoh anh nv cid tp).consensusState.isSome =
      (CheckValidityAndUpdateState env acs aoh anh nv cid tp).err.isNone) ∧
    (∀ cs oldH newH e, acs = AnyClientState.tendermint cs →
      aoh = AnyHeader.tendermint oldH → anh = AnyHeader.tendermint newH →
      checkValidity env cs oldH newH nv cid tp = some e →
      CheckValidityAndUpdateState env acs aoh anh nv cid tp = ⟨none, none, some e⟩) := by
  refine ⟨?_, ?_, ?_⟩
  · rcases orchestrator_cases env acs aoh anh nv cid tp with ⟨e, he⟩ | ⟨cs, co, hs⟩
    · rw [he]; rfl
    · rw [hs]; rfl
  · rcases orchestrator_cases env acs aoh anh nv cid tp with ⟨e, he⟩ | ⟨cs, co, hs⟩
    · rw [he]; rfl
    · rw [hs]; rfl
  · intro cs oldH newH e hacs haoh hanh hcv
    subst hacs; subst haoh; subst hanh
    simp [CheckValidityAndUpdateState, hcv]

/-- Witness for C5: a concrete checker failure (equal heights) is propagated
unchanged by the orchestrator, with both states nil. -/
theorem orchestrator_atomicity_witness :
    CheckValidityAndUpdateState env0 (AnyClientState.tendermint cs0) (AnyHeader.tendermint hdrOld)
      (AnyHeader.tendermint hdrOld) ⟨2⟩ ("testchain") 1000 =
      ⟨none, none, some (Err.wrapped RegisteredError.invalidHeader
        (nonIncreasingHeightMsg 100 100))⟩ :=
  (orchestrator_atomicity env0 (AnyClientState.tendermint cs0) (AnyHeader.tendermint hdrOld)
      (AnyHeader.tendermint hdrOld) ⟨2⟩ ("testchain") 1000).2.2 cs0 hdrOld hdrOld
    (Err.wrapped RegisteredError.invalidHeader (nonIncreasingHeightMsg 100 100))
    rfl rfl rfl (by decide)

/-- C6 counterexample: the source reads the global clock (`time.Now()`)
inside `checkValidity` instead of taking an injectable time parameter, so
two runs on identical declared inputs, under ambient clocks reading 0 and
5000 and a verifier enforcing the trusting-period clause, produce different
outcomes — no parameter of the call fixes "now". -/
theorem clock_influences_outcome :
    CheckValidityAndUpdateState envEarly (AnyClientState.tendermint cs0)
      (AnyHeader.tendermint hdrOld) (AnyHeader.tendermint hdrNew) ⟨2⟩ ("testchain") 1000 ≠
    CheckValidityAndUpdateState envLate (AnyClientState.tendermint cs0)
      (AnyHeader.tendermint hdrOld) (AnyHeader.tendermint hdrNew) ⟨2⟩ ("testchain") 1000 := by
  decide

/-- C6 (amended): `CheckValidityAndUpdateState` is deterministic apart from
the wall-clock read: whenever the ambient clocks of two runs read the same
"now" (the external verifier and hash being the same), identical inputs
yield identical outcomes; the time source is the global clock read inside
the checker, not an injectable parameter. -/
theorem deterministic_given_fixed_now
    (lv : String → SignedHeader → ValidatorSet → SignedHeader → ValidatorSet →
      Int → Int → Fraction → Option LiteError)
    (vh : ValidatorSet → List Nat) (c1 c2 : Unit → Int)
    (acs : AnyClientState) (aoh anh : AnyHeader) (nv : ValidatorSet) (cid : String) (tp : Int)
    (hc : c1 () = c2 ()) :
    CheckValidityAndUpdateState ⟨lv, vh, c1⟩ acs aoh anh nv cid tp =
    CheckValidityAndUpdateState ⟨lv, vh, c2⟩ acs aoh anh nv cid tp := by
  cases acs with
  | other t => rfl
  | tendermint cs =>
    cases aoh with
    | other t => rfl
    | tendermint oldH =>
      cases anh with
      | other t => rfl
      | tendermint newH =>
        have hcv : checkValidity ⟨lv, vh, c1⟩ cs oldH newH nv cid tp =
            checkValidity ⟨lv, vh, c2⟩ cs oldH newH nv cid tp := by
          simp [checkValidity, hc]
        simp [CheckValidityAndUpdateState, hcv, update]

/-- Witness for C6 (amended): two syntactically different clocks reading the
same instant give identical outcomes on concrete inputs. -/
theorem deterministic_given_fixed_now_witness :
    CheckValidityAndUpdateState ⟨liteVerifyExpiry, fun v => [v.id], fun _ => 0⟩
      (AnyClientState.tendermint cs0) (AnyHeader.tendermint hdrOld) (AnyHeader.tendermint hdrNew)
      ⟨2⟩ ("testchain") 1000 =
    CheckValidityAndUpdateState ⟨liteVerifyExpiry, fun v => [v.id], fun _ => 0 + 0⟩
      (AnyClientState.tendermint cs0) (AnyHeader.tendermint hdrOld) (AnyHeader.tendermint hdrNew)
      ⟨2⟩ ("testchain") 1000 :=
  deterministic_given_fixed_now liteVerifyExpiry (fun v => [v.id]) (fun _ => 0) (fun _ => 0 + 0)
    (AnyClientState.tendermint cs0) (AnyHeader.tendermint hdrOld) (AnyHeader.tendermint hdrNew)
    ⟨2⟩ ("testchain") 1000 (by decide)

/-- C7: the error outcomes of the taxonomy are pairwise distinct and
distinguishable by the caller: the non-increasing-height rejection differs
from the below-latest-trusted rejection (their messages differ for all
heights), a header self-consistency violation differs from a delegated
verification failure, and the wrong-client-type wrap differs from the
wrong-header-type wrap. -/
theorem error_kinds_distinct
    (env : Env) (cs : ClientState) (oldH newH : Header) (nv : ValidatorSet)
    (cid : String) (tp : Int)
    (env' : Env) (cs' : ClientState) (oldH' newH' : Header) (nv' : ValidatorSet)
    (cid' : String) (tp' : Int)
    (h1 : newH.height ≤ oldH.height)
    (h2 : oldH'.height < newH'.height) (h3 : newH'.height < cs'.latestHeight) :
    checkValidity env cs oldH newH nv cid tp ≠
      checkValidity env' cs' oldH' newH' nv' cid' tp' ∧
    (∀ m e, Err.headerSelfValidation m ≠ Err.lite e) ∧
    (∀ m m', Err.wrapped RegisteredError.invalidClientType m ≠
      Err.wrapped RegisteredError.invalidHeader m') := by
  refine ⟨?_, fun m e h => by simp at h, fun m m' h => by simp at h⟩
  rw [checkValidity_nonIncreasing env cs oldH newH nv cid tp h1,
    checkValidity_belowLatest env' cs' oldH' newH' nv' cid' tp' h2
      (by rw [Header.getHeight]; omega)]
  intro h
  simp only [Option.some.injEq, Err.wrapped.injEq] at h
  exact msgs_ne _ _ _ _ h.2

/-- Witness for C7: the concrete equal-heights rejection differs from the
concrete below-latest-trusted rejection. -/
theorem error_kinds_distinct_witness :
    checkValidity env0 cs0 hdrOld hdrOld ⟨2⟩ ("testchain") 1000 ≠
    checkValidity env0 ⟨150⟩ hdrOld ⟨sh0, ⟨2⟩, ⟨3⟩, [9], 120⟩ ⟨2⟩ ("testchain") 1000 :=
  (error_kinds_distinct env0 cs0 hdrOld hdrOld ⟨2⟩ ("testchain") 1000
    env0 ⟨150⟩ hdrOld ⟨sh0, ⟨2⟩, ⟨3⟩, [9], 120⟩ ⟨2⟩ ("testchain") 1000
    (by decide) (by decide) (by decide)).1

/-- C8 counterexample: on an input whose client state and old header are
both foreign variants, the orchestrator fails with the wrong-client-type
error, not the wrong-header-type error the claim requires for every input
with a foreign header — the client-type discrimination runs first. -/
theorem foreign_client_and_header_counterexample :
    CheckValidityAndUpdateState env0 (AnyClientState.other ("solomachine"))
      (AnyHeader.other ("solomachine")) (AnyHeader.tendermint hdrNew) ⟨2⟩ ("testchain") 1000 =
      ⟨none, none, some (Err.wrapped RegisteredError.invalidClientType
        ("light client is not from Tendermint"))⟩ ∧
    Err.wrapped RegisteredError.invalidClientType ("light client is not from Tendermint") ≠
      Err.wrapped RegisteredError.invalidHeader ("header is not from Tendermint") := by
  decide

/-- C8 (amended): a non-Tendermint client state is rejected with the
wrong-client-type error whatever the headers; with a Tendermint client
state, a non-Tendermint old or new header is rejected with the
wrong-header-type error; in all cases the outcome is independent of the
environment, heights, self-consistency and verification — no later check
runs. -/
theorem type_discrimination (env : Env) (nv : ValidatorSet) (cid : String) (tp : Int) :
    (∀ tag aoh anh, CheckValidityAndUpdateState env (AnyClientState.other tag) aoh anh
      nv cid tp = ⟨none, none, some (Err.wrapped RegisteredError.invalidClientType
        ("light client is not from Tendermint"))⟩) ∧
    (∀ cs tag anh, CheckValidityAndUpdateState env (AnyClientState.tendermint cs)
      (AnyHeader.other tag) anh nv cid tp =
      ⟨none, none, some (Err.wrapped RegisteredError.invalidHeader
        ("header is not from Tendermint"))⟩) ∧
    (∀ cs oldH tag, CheckValidityAndUpdateState env (AnyClientState.tendermint cs)
      (AnyHeader.tendermint oldH) (AnyHeader.other tag) nv cid tp =
      ⟨none, none, some (Err.wrapped RegisteredError.invalidHeader
        ("header is not from Tendermint"))⟩) :=
  ⟨fun _ _ _ => rfl, fun _ _ _ => rfl, fun _ _ _ => rfl⟩

/-- C9: `update` is a pure, total function with no error path: re-running it
on its own output and the same header yields the identical pair, and the
consensus state it builds depends only on the header (and the external
hash), not on the prior client state. -/
theorem update_pure_idempotent (env : Env) (cs cs' : ClientState) (h : Header) :
    update env (update env cs h).1 h = update env cs h ∧
    (update env cs h).2 = (update env cs' h).2 :=
  ⟨rfl, rfl⟩

/-- C10: every call passes the fixed default trust level to the delegated
verifier: two verifiers agreeing at `DefaultTrustLevel` (while free to
differ at every other threshold) make `CheckValidityAndUpdateState` behave
identically on all inputs, so no caller-visible parameter can select a
different threshold. -/
theorem trust_level_fixed_default
    (lv1 lv2 : String → SignedHeader → ValidatorSet → SignedHeader → ValidatorSet →
      Int → Int → Fraction → Option LiteError)
    (vh : ValidatorSet → List Nat) (clk : Unit → Int)
    (acs : AnyClientState) (aoh anh : AnyHeader) (nv : ValidatorSet) (cid : String) (tp : Int)
    (hagree : ∀ c sh v sh' vs t n,
      lv1 c sh v sh' vs t n DefaultTrustLevel = lv2 c sh v sh' vs t n DefaultTrustLevel) :
    CheckValidityAndUpdateState ⟨lv1, vh, clk⟩ acs aoh anh nv cid tp =
    CheckValidityAndUpdateState ⟨lv2, vh, clk⟩ acs aoh anh nv cid tp := by
  cases acs with
  | other t => rfl
  | tendermint cs =>
    cases aoh with
    | other t => rfl
    | tendermint oldH =>
      cases anh with
      | other t => rfl
      | tendermint newH =>
        have hcv : checkValidity ⟨lv1, vh, clk⟩ cs oldH newH nv cid tp =
            checkValidity ⟨lv2, vh, clk⟩ cs oldH newH nv cid tp := by
          simp [checkValidity, hagree]
        simp [CheckValidityAndUpdateState, hcv, update]

/-- Witness for C10: the always-accepting verifier and the verifier that
accepts only at the default trust level are indistinguishable on concrete
inputs. -/
theorem trust_level_fixed_default_witness :
    CheckValidityAndUpdateState ⟨fun _ _ _ _ _ _ _ _ => none, fun v => [v.id], fun _ => 0⟩
      (AnyClientState.tendermint cs0) (AnyHeader.tendermint hdrOld) (AnyHeader.tendermint hdrNew)
      ⟨2⟩ ("testchain") 1000 =
    CheckValidityAndUpdateState ⟨lvOnlyDefault, fun v => [v.id], fun _ => 0⟩
      (AnyClientState.tendermint cs0) (AnyHeader.tendermint hdrOld) (AnyHeader.tendermint hdrNew)
      ⟨2⟩ ("testchain") 1000 :=
  trust_level_fixed_default (fun _ _ _ _ _ _ _ _ => none) lvOnlyDefault
    (fun v => [v.id]) (fun _ => 0)
    (AnyClientState.tendermint cs0) (AnyHeader.tendermint hdrOld) (AnyHeader.tendermint hdrNew)
    ⟨2⟩ ("testchain") 1000
    (fun c sh v sh' vs t n => by simp [lvOnlyDefault])

end IbcTendermint
